import Mathlib

/-!
Verification of the manim-api repository against its specification.

The development shallowly embeds the pure/string-level logic of the
repository (src/llm_service.py, src/manim_knowledge_base.py,
src/render_service.py, src/manim_runner.py, src/api.py) as executable
Lean functions over `List Char` and `String`, and models the effectful
boundaries (the CPython parser, the dynamically loaded module, the
filesystem, the LLM/TTS network calls) as explicit oracles.  All string
scanning is done with hand-rolled `List Char` functions that mirror the
exact Python operations (`in`, `str.strip`, `str.split`, and the specific
regular expressions appearing in the source), because the claims hinge on
their precise behaviour.
-/

/-! ## Generic string helpers (Python semantics, ASCII-faithful) -/

/-- Python `needle in hay` prefix component: does `s` start with `needle`? -/
def startsWithChars : List Char → List Char → Bool
  | [], _ => true
  | _ :: _, [] => false
  | a :: as, b :: bs => a == b && startsWithChars as bs

/-- Python substring containment `needle in hay` (str.__contains__). -/
def containsSub (needle : List Char) : List Char → Bool
  | [] => needle.isEmpty
  | c :: cs => startsWithChars needle (c :: cs) || containsSub needle cs

/-- Whitespace class of Python `str.strip` and of the regex class `\s`
(space, tab, newline, carriage return, vertical tab, form feed). -/
def isPySpace (c : Char) : Bool :=
  c == ' ' || c == '\t' || c == '\n' || c == '\r' || c == '\x0b' || c == '\x0c'

/-- Word-character class of the regex class `\w` (ASCII fragment:
letters, digits and underscore; all inputs relevant to the claims are
ASCII). -/
def isWordChar (c : Char) : Bool :=
  c.isAlphanum || c == '_'

/-- Python `str.strip()`: drop leading and trailing whitespace. -/
def pyStrip (s : List Char) : List Char :=
  ((s.dropWhile isPySpace).reverse.dropWhile isPySpace).reverse

/-- Python `str.split('\x27\n\x27')`: split on every newline, keeping empty
pieces; the empty string yields one empty piece. -/
def splitLines : List Char → List (List Char)
  | [] => [[]]
  | c :: cs =>
    if c = '\n' then [] :: splitLines cs
    else
      match splitLines cs with
      | l :: ls => (c :: l) :: ls
      | [] => [[c]]

/-- Inverse of `splitLines`: join lines with a newline separator. -/
def joinLines : List (List Char) → List Char
  | [] => []
  | [l] => l
  | l :: ls => l ++ '\n' :: joinLines ls

/-- Python `str.lower()` (ASCII fragment, via `Char.toLower`). -/
def pyLower (s : List Char) : List Char :=
  s.map Char.toLower

/-! ## src/llm_service.py — `LLMService._is_code_scrambled` (lines 114-147)

The detector strips the code, splits it into lines, flags any occurrence
of the manimlib import on a line of index `≥ 5`, and otherwise flags the
snippet when the first line containing `self.` strictly precedes the
last line containing both `class ` and `Scene`.  (The source also
computes an `import_found_early` flag over the first five lines, but
never uses it; it is omitted here because it has no effect.) -/

/-- Line predicate of check 1: `\x27from manimlib import\x27 in line`. -/
def importLine (l : List Char) : Bool :=
  containsSub (("from manimlib import").data) l

/-- Line predicate of check 2 (class side): `\x27class \x27 in line and \x27Scene\x27 in line`. -/
def classSceneLine (l : List Char) : Bool :=
  containsSub (("class ").data) l && containsSub (("Scene").data) l

/-- Line predicate of check 2 (body side): `\x27self.\x27 in line`. -/
def selfLine (l : List Char) : Bool :=
  containsSub (("self.").data) l

/-- Index of the first line satisfying `p` (Python: set once, never updated). -/
def firstIdxAux (p : List Char → Bool) : List (List Char) → Nat → Option Nat
  | [], _ => none
  | l :: ls, i => if p l then some i else firstIdxAux p ls (i + 1)

/-- Index of the last line satisfying `p` (Python: updated on every match). -/
def lastIdxAux (p : List Char → Bool) : List (List Char) → Nat → Option Nat → Option Nat
  | [], _, acc => acc
  | l :: ls, i, acc => lastIdxAux p ls (i + 1) (if p l then some i else acc)

/-- Lines of the stripped code, as the source computes them:
`code.strip().split('\x27\n\x27')`. -/
def linesOf (code : List Char) : List (List Char) :=
  splitLines (pyStrip code)

/-- Check 1 in isolation: the import occurs on a line of index `≥ 5`. -/
def hasLateImport (code : List Char) : Bool :=
  ((linesOf code).drop 5).any importLine

/-- Check 2 in isolation: the first `self.` line strictly precedes the
last `class …Scene…` line. -/
def selfBeforeClass (code : List Char) : Bool :=
  let lines := linesOf code
  match firstIdxAux selfLine lines 0, lastIdxAux classSceneLine lines 0 none with
  | some i, some j => decide (i < j)
  | _, _ => false

/-- `LLMService._is_code_scrambled`, mirroring the source's sequencing:
check 1 returns early, then check 2 decides. -/
def is_code_scrambled (code : List Char) : Bool :=
  let lines := linesOf code
  if (lines.drop 5).any importLine then true
  else
    match firstIdxAux selfLine lines 0, lastIdxAux classSceneLine lines 0 none with
    | some i, some j => decide (i < j)
    | _, _ => false

/-! ## src/llm_service.py — `LLMService._post_process_code` (lines 195-265)

Each regex substitution of the source is compiled by hand to a
deterministic left-to-right scanner.  All the patterns involved are
backtrack-free (their greedy character classes are pairwise disjoint
from the literals that follow them), so maximal-munch scanning computes
exactly Python `re.sub`, which replaces non-overlapping matches left to
right and resumes scanning after each replacement. -/

/-- Step 1: insert the required import if absent
(`if "from manimlib import" not in code: code = "from manimlib import *\n\n" + code`). -/
def fix_imports (code : List Char) : List Char :=
  if containsSub (("from manimlib import").data) code then code
  else ("from manimlib import *\n\n").data ++ code

/-- Matcher for the regex `(\w+)\s*=\s*always_redraw\s*\(\s*(\w+)\s*\)`
anchored at the head of `s`; yields the two groups and the rest of the
input after the match. -/
def matchAlwaysRedraw (s : List Char) : Option (List Char × List Char × List Char) :=
  let var := s.takeWhile isWordChar
  if var.isEmpty then none
  else
    match (s.dropWhile isWordChar).dropWhile isPySpace with
    | '=' :: r2 =>
      let r3 := r2.dropWhile isPySpace
      if startsWithChars (("always_redraw").data) r3 then
        match (r3.drop 13).dropWhile isPySpace with
        | '(' :: r5 =>
          let r6 := r5.dropWhile isPySpace
          let fn := r6.takeWhile isWordChar
          if fn.isEmpty then none
          else
            match (r6.dropWhile isWordChar).dropWhile isPySpace with
            | ')' :: rest => some (var, fn, rest)
            | _ => none
        | _ => none
      else none
    | _ => none

/-- Replacement template of `fix_always_redraw` in the source. -/
def alwaysRedrawRepl (var fn : List Char) : List Char :=
  var ++ (" = ").data ++ fn ++ ("()\n        ").data ++ var ++
    (".add_updater(lambda m: m.become(").data ++ fn ++ ("()))").data

/-- Fuelled `re.sub` driver for the `always_redraw` pattern; every match
consumes at least one character, so fuel = input length suffices. -/
def subAlwaysRedraw : Nat → List Char → List Char
  | 0, s => s
  | _ + 1, [] => []
  | n + 1, c :: cs =>
    match matchAlwaysRedraw (c :: cs) with
    | some (var, fn, rest) => alwaysRedrawRepl var fn ++ subAlwaysRedraw n rest
    | none => c :: subAlwaysRedraw n cs

/-- Step 2: rewrite `x = always_redraw(f)` to the explicit updater form.
(The source guards the substitution with a `search`; the guard does not
change the result, since a match-free `re.sub` is the identity.) -/
def always_redraw_fix (code : List Char) : List Char :=
  subAlwaysRedraw code.length code

/-- Matcher for a `\b`‑delimited word (regex `\bW\b`, with `W` ending in a
word character, so the trailing `\b` coincides with `(?!\w)`): `prevWord`
says whether the character preceding the scan position is a word
character. -/
def matchWordAt (w : List Char) (prevWord : Bool) (s : List Char) : Option (List Char) :=
  if prevWord then none
  else if startsWithChars w s then
    match s.drop w.length with
    | [] => some []
    | c :: cs => if isWordChar c then none else some (c :: cs)
  else none

/-- Fuelled `re.sub` driver for `\bW\b → repl`.  After a match the scan
resumes after the matched text, whose last character is a word
character. -/
def subWord (w repl : List Char) : Nat → Bool → List Char → List Char
  | 0, _, s => s
  | _ + 1, _, [] => []
  | n + 1, prev, c :: cs =>
    match matchWordAt w prev (c :: cs) with
    | some rest => repl ++ subWord w repl n true rest
    | none => c :: subWord w repl n (isWordChar c) cs

/-- Whole-string word substitution `re.sub(r"\bW\b", repl, code)`;
at the start of the string there is no preceding character, so the
initial boundary holds. -/
def word_sub (w repl code : List Char) : List Char :=
  subWord w repl code.length false code

/-- Step 3: `re.sub(r"\bCreate\b(?!\w)", "ShowCreation", code)`. -/
def create_fix (code : List Char) : List Char :=
  word_sub (("Create").data) (("ShowCreation").data) code

/-- Step 4: `code.replace(\x27–\x27, \x27-\x27).replace(\x27—\x27, \x27-\x27)` — the two
sequential single-character replaces are one character map, since
neither replacement reintroduces a dash. -/
def dash_fix (code : List Char) : List Char :=
  code.map (fun c => if c == Char.ofNat 8211 || c == Char.ofNat 8212 then '-' else c)

/-- Step 5 table `color_fixes`, in source (dict) order. -/
def COLOR_FIXES : List (List Char × List Char) :=
  [ (("LIGHT_GRAY").data, ("GREY_B").data)
  , (("LIGHT_GREY").data, ("GREY_B").data)
  , (("DARK_GRAY").data, ("GREY_D").data)
  , (("DARK_GREY").data, ("GREY_D").data)
  , (("LIGHT_BROWN").data, ("GOLD_E").data)
  , (("DARK_BROWN").data, ("GOLD_E").data)
  , (("LIGHT_PINK").data, ("PINK").data)
  , (("DARK_PINK").data, ("MAROON_C").data)
  , (("LIGHT_BLUE").data, ("BLUE_B").data)
  , (("DARK_BLUE").data, ("BLUE_E").data)
  , (("LIGHT_GREEN").data, ("GREEN_B").data)
  , (("DARK_GREEN").data, ("GREEN_E").data)
  , (("LIGHT_RED").data, ("RED_B").data)
  , (("DARK_RED").data, ("RED_E").data)
  , (("LIGHT_YELLOW").data, ("YELLOW_B").data)
  , (("DARK_YELLOW").data, ("YELLOW_E").data)
  , (("LIGHT_PURPLE").data, ("PURPLE_B").data)
  , (("DARK_PURPLE").data, ("PURPLE_E").data)
  , (("LIGHT_ORANGE").data, ("ORANGE").data)
  , (("DARK_ORANGE").data, ("GOLD_E").data)
  , (("CYAN").data, ("TEAL").data)
  , (("MAGENTA").data, ("PINK").data) ]

/-- Step 5: the sequence of word substitutions
`re.sub(rf"\b{wrong}\b", correct, code)`, applied in table order. -/
def color_fix (code : List Char) : List Char :=
  COLOR_FIXES.foldl (fun c p => word_sub p.1 p.2 c) code

/-- Matcher for the regex `\\text\{([^}]+)\}` anchored at the head of
`s`; the group is the maximal nonempty run of non-`\x7d` characters. -/
def matchTextMacro (s : List Char) : Option (List Char × List Char) :=
  if startsWithChars (("\\text\x7b").data) s then
    let r := s.drop 6
    let grp := r.takeWhile (fun c => c != '\x7d')
    if grp.isEmpty then none
    else
      match r.dropWhile (fun c => c != '\x7d') with
      | '\x7d' :: rest => some (grp, rest)
      | _ => none
  else none

/-- Fuelled `re.sub` driver for `\\text\{([^}]+)\}` → `\\mathrm\{\1\}`. -/
def subTextMacro : Nat → List Char → List Char
  | 0, s => s
  | _ + 1, [] => []
  | n + 1, c :: cs =>
    match matchTextMacro (c :: cs) with
    | some (grp, rest) => ("\\mathrm\x7b").data ++ grp ++ '\x7d' :: subTextMacro n rest
    | none => c :: subTextMacro n cs

/-- Step 5b: the LaTeX sanitization, guarded exactly as in the source by
`if r"\text{" in code`. -/
def text_fix (code : List Char) : List Char :=
  if containsSub (("\\text\x7b").data) code then subTextMacro code.length code
  else code

/-- Matcher for the regex `class\s+\w+\(Scene\):` anchored at the head of `s`. -/
def matchClassDef (s : List Char) : Bool :=
  if startsWithChars (("class").data) s then
    let r := s.drop 5
    if (r.takeWhile isPySpace).isEmpty then false
    else
      let r2 := r.dropWhile isPySpace
      if (r2.takeWhile isWordChar).isEmpty then false
      else startsWithChars (("(Scene):").data) (r2.dropWhile isWordChar)
  else false

/-- `re.search(r"class\s+\w+\(Scene\):", code)` as a Boolean: does the
pattern match at some position? -/
def hasClassDef : List Char → Bool
  | [] => false
  | c :: cs => matchClassDef (c :: cs) || hasClassDef cs

/-- The body indentation of step 6:
`"\n".join("    " + line for line in code.split("\n"))`. -/
def indent_lines (code : List Char) : List Char :=
  joinLines ((splitLines code).map (fun l => ("    ").data ++ l))

/-- The synthetic wrapper of step 6 (the f-string of the source). -/
def wrap_in_scene (code : List Char) : List Char :=
  ("\nfrom manimlib import *\n\nclass GeneratedScene(Scene):\n    def construct(self):\n").data
    ++ indent_lines code ++ ['\n']

/-- Step 6: wrap the body in a synthetic scene class when no scene-class
definition is detected. -/
def ensure_class (code : List Char) : List Char :=
  if hasClassDef code then code else wrap_in_scene code

/-- `LLMService._post_process_code`: the full repair pipeline in source
order (imports, always_redraw, Create, dashes, colors, LaTeX `\text`,
class wrapping). -/
def post_process_code (code : List Char) : List Char :=
  ensure_class (text_fix (color_fix (dash_fix (create_fix (always_redraw_fix (fix_imports code))))))

/-! ## src/llm_service.py — validation block of `generate_manim_content`
(lines 330-343) -/

/-- The denylist `illegal_imports` of the source, in order. -/
def ILLEGAL_IMPORTS : List (List Char) :=
  [ ("from manim import").data
  , ("import manim").data
  , ("from manif").data
  , ("import manif").data ]

/-- The validation applied to post-processed code: the scrambled-output
check, then the denylist, then the syntactic check (`ast.parse`, modeled
as the oracle `parseOk`).  An `Except.error` models the raised
`ValueError`/`SyntaxError` that drives the retry loop. -/
def validate_code (parseOk : List Char → Bool) (code : List Char) : Except (List Char) Unit :=
  if is_code_scrambled code then
    .error (("Code appears to be scrambled/interleaved - LLM produced corrupted output").data)
  else
    match ILLEGAL_IMPORTS.find? (fun b => containsSub b code) with
    | some b =>
      .error (("Code contains illegal import \x27").data ++ b ++
        ("\x27. Must use \x27from manimlib import *\x27").data)
    | none => if parseOk code then .ok () else .error (("invalid syntax").data)

/-! ## src/llm_service.py — `LLMService.generate_manim_content` (lines 267-362)

The function resolves the API key (request key first, then the
process-wide default), performs one storyboard call and one script call,
and then runs the code stage under a retry loop bounded at 3 attempts.
The network calls and the per-attempt extraction/processing/validation
body are modeled by an oracle: `codeAttempt k` is the outcome of the
`try`-body of attempt `k` — validated code, or the message of the caught
`SyntaxError`/`ValueError`.  `StageCounts` instruments how many times
each stage runs. -/

structure LLMOracle where
  storyboardResp : String
  scriptText : String
  codeAttempt : Nat → Except String String

structure StageCounts where
  storyboard : Nat
  script : Nat
  code : Nat
deriving DecidableEq

/-- Python `str.strip` at `String` level. -/
def pyStripS (s : String) : String :=
  ⟨pyStrip s.data⟩

/-- The code-stage retry loop (`for attempt in range(3)`), fuelled by the
remaining attempts; `k` is the attempt index.  On the final attempt
(`attempt == max_code_attempts - 1`) the caught error is re-raised as
the exhaustion `ValueError` of the source; the fuel-0 fallback mirrors
the unreachable post-loop `if code is None` guard. -/
def codeAttemptLoop (o : LLMOracle) : Nat → Nat → Except String String × Nat
  | 0, k => (.error ("Code generation failed - no valid code produced"), k)
  | fuel + 1, k =>
    match o.codeAttempt k with
    | .ok c => (.ok c, k + 1)
    | .error e =>
      if k == 2 then
        (.error ("Code generation failed after 3 attempts. Last error: " ++ e), k + 1)
      else codeAttemptLoop o fuel (k + 1)

/-- `LLMService.generate_manim_content`: key resolution, one storyboard
call, one script call, then the bounded code loop; returns the result
together with the stage call counts.  (Python treats an empty-string key
as missing via falsiness; keys are modeled as `Option`.) -/
def generate_manim_content (o : LLMOracle) (api_key default_key : Option String) :
    Except String (String × String) × StageCounts :=
  match api_key.orElse (fun _ => default_key) with
  | none => (.error ("Groq API key is required."), ⟨0, 0, 0⟩)
  | some _ =>
    let _storyboard := o.storyboardResp
    let script := o.scriptText
    match codeAttemptLoop o 3 0 with
    | (.ok c, n) => (.ok (pyStripS c, script), ⟨1, 1, n⟩)
    | (.error e, n) => (.error e, ⟨1, 1, n⟩)

/-- Error text of an `Except`, used to state the exhaustion message. -/
def errStrOf : Except String String → String
  | .error e => e
  | .ok _ => ""

/-! ## src/manim_knowledge_base.py — `retrieve_relevant_knowledge` (lines 737-786)

The knowledge bodies are opaque for the claims; the embedding computes
the list of *section keys* the function selects (the final string is the
join of the corresponding section bodies).  Scores in the source are
`int + 0.5`-floats; they are stored here doubled (keyword hit = 2,
baseline bonus = 1), which preserves all comparisons exactly. -/

/-- Keys of `KNOWLEDGE_SECTIONS`, in dict (insertion) order. -/
def SECTION_KEYS : List String :=
  [ "geometry_basic", "geometry_lines", "geometry_polygons", "text_latex"
  , "coordinate_systems", "3d_objects", "animations_creation", "animations_fading"
  , "animations_transform", "animations_indication", "animations_composition"
  , "scene_methods", "mobject_methods", "constants_colors", "vgroup"
  , "rate_functions", "multi_scene_pattern" ]

/-- `KEYWORD_MAPPINGS`, in dict (insertion) order. -/
def KEYWORD_MAPPINGS : List (String × List String) :=
  [ ("circle", ["geometry_basic", "mobject_methods"])
  , ("dot", ["geometry_basic"])
  , ("arc", ["geometry_basic"])
  , ("ellipse", ["geometry_basic"])
  , ("line", ["geometry_lines"])
  , ("arrow", ["geometry_lines"])
  , ("vector", ["geometry_lines"])
  , ("rectangle", ["geometry_polygons"])
  , ("square", ["geometry_polygons"])
  , ("polygon", ["geometry_polygons"])
  , ("triangle", ["geometry_polygons"])
  , ("star", ["geometry_polygons"])
  , ("sector", ["geometry_polygons"])
  , ("annulus", ["geometry_polygons"])
  , ("shape", ["geometry_basic", "geometry_polygons"])
  , ("text", ["text_latex"])
  , ("tex", ["text_latex"])
  , ("latex", ["text_latex"])
  , ("math", ["text_latex", "coordinate_systems"])
  , ("equation", ["text_latex"])
  , ("formula", ["text_latex"])
  , ("label", ["text_latex"])
  , ("graph", ["coordinate_systems"])
  , ("plot", ["coordinate_systems"])
  , ("function", ["coordinate_systems"])
  , ("axes", ["coordinate_systems"])
  , ("axis", ["coordinate_systems"])
  , ("coordinate", ["coordinate_systems"])
  , ("plane", ["coordinate_systems"])
  , ("number line", ["coordinate_systems"])
  , ("x-axis", ["coordinate_systems"])
  , ("y-axis", ["coordinate_systems"])
  , ("sine", ["coordinate_systems"])
  , ("cosine", ["coordinate_systems"])
  , ("parabola", ["coordinate_systems"])
  , ("3d", ["3d_objects", "scene_methods"])
  , ("sphere", ["3d_objects"])
  , ("cylinder", ["3d_objects"])
  , ("cone", ["3d_objects"])
  , ("torus", ["3d_objects"])
  , ("surface", ["3d_objects"])
  , ("camera", ["scene_methods"])
  , ("rotate camera", ["scene_methods"])
  , ("animate", ["animations_creation", "animations_transform"])
  , ("animation", ["animations_creation", "animations_transform", "animations_composition"])
  , ("create", ["animations_creation"])
  , ("write", ["animations_creation"])
  , ("draw", ["animations_creation"])
  , ("fade", ["animations_fading"])
  , ("appear", ["animations_fading"])
  , ("disappear", ["animations_fading"])
  , ("transform", ["animations_transform"])
  , ("morph", ["animations_transform"])
  , ("move", ["animations_transform", "mobject_methods"])
  , ("indicate", ["animations_indication"])
  , ("flash", ["animations_indication"])
  , ("highlight", ["animations_indication"])
  , ("wiggle", ["animations_indication"])
  , ("group", ["animations_composition", "vgroup"])
  , ("sequence", ["animations_composition"])
  , ("together", ["animations_composition"])
  , ("color", ["constants_colors", "mobject_methods"])
  , ("position", ["mobject_methods", "constants_colors"])
  , ("scale", ["mobject_methods"])
  , ("rotate", ["mobject_methods", "animations_transform"])
  , ("vgroup", ["vgroup"])
  , ("arrange", ["vgroup"])
  , ("easing", ["rate_functions"])
  , ("smooth", ["rate_functions"])
  , ("explain", ["multi_scene_pattern", "text_latex"])
  , ("theorem", ["multi_scene_pattern", "text_latex", "geometry_basic"])
  , ("proof", ["multi_scene_pattern", "text_latex"])
  , ("step by step", ["multi_scene_pattern"])
  , ("tutorial", ["multi_scene_pattern"])
  , ("demonstration", ["multi_scene_pattern"])
  , ("fourier", ["coordinate_systems", "multi_scene_pattern"])
  , ("calculus", ["coordinate_systems", "text_latex"])
  , ("derivative", ["coordinate_systems", "text_latex"])
  , ("integral", ["coordinate_systems", "text_latex"])
  , ("pythagorean", ["geometry_polygons", "text_latex", "multi_scene_pattern"])
  , ("pythagoras", ["geometry_polygons", "text_latex", "multi_scene_pattern"]) ]

/-- The baseline sections that always receive the `+0.5` bonus. -/
def BASELINE_SECTIONS : List String :=
  ["scene_methods", "constants_colors", "mobject_methods"]

/-- The fallback list of the `if not top_sections` branch. -/
def DEFAULT_SECTIONS : List String :=
  [ "geometry_basic", "text_latex", "animations_creation"
  , "animations_transform", "scene_methods", "multi_scene_pattern" ]

/-- `section_scores[section] = section_scores.get(section, 0) + d` on an
insertion-ordered association list (the semantics of a Python dict). -/
def bumpScore (scores : List (String × Nat)) (key : String) (d : Nat) : List (String × Nat) :=
  if scores.any (fun p => p.1 == key) then
    scores.map (fun p => if p.1 == key then (p.1, p.2 + d) else p)
  else scores ++ [(key, d)]

/-- The keyword loop: every keyword that occurs in the lower-cased
prompt bumps each of its sections by 1 (stored doubled as 2). -/
def applyKeywordScores (promptLower : List Char) : List (String × Nat) :=
  KEYWORD_MAPPINGS.foldl
    (fun sc kv =>
      if containsSub kv.1.data promptLower then
        kv.2.foldl (fun s sec => bumpScore s sec 2) sc
      else sc)
    []

/-- The baseline loop: every baseline section gains 0.5 (stored doubled as 1). -/
def addBaseline (scores : List (String × Nat)) : List (String × Nat) :=
  BASELINE_SECTIONS.foldl (fun s sec => bumpScore s sec 1) scores

/-- Stable descending insertion: a new element moves ahead only of
strictly smaller scores, so equal scores keep insertion order — the
behaviour of Python's stable `sorted(..., key=lambda x: -x[1])`. -/
def insertDesc (x : String × Nat) : List (String × Nat) → List (String × Nat)
  | [] => [x]
  | y :: ys => if y.2 < x.2 then x :: y :: ys else y :: insertDesc x ys

/-- Stable sort by descending score. -/
def sortDesc (l : List (String × Nat)) : List (String × Nat) :=
  l.foldl (fun acc x => insertDesc x acc) []

/-- `retrieve_relevant_knowledge`, computed up to the selected section
keys: keyword scores, baseline bonus, stable descending sort, truncation
to `max_sections`, the (dead, see C7) fallback branch, and the final
membership filter against `KNOWLEDGE_SECTIONS`. -/
def retrieve_relevant_knowledge_sections (prompt : String) (max_sections : Nat) : List String :=
  let promptLower := pyLower prompt.data
  let scores := addBaseline (applyKeywordScores promptLower)
  let top := ((sortDesc scores).map (fun p => p.1)).take max_sections
  let top := if top.isEmpty then DEFAULT_SECTIONS else top
  top.filter (fun s => SECTION_KEYS.contains s)

/-! ## src/render_service.py — data model and `RenderResult.cleanup` (lines 51-63)

The filesystem is modeled as the list of existing paths; `rmtree`
removes a path and everything under it.  `cleanup` follows the source:
`if self.temp_dir and self.temp_dir.exists(): shutil.rmtree(self.temp_dir, ignore_errors=True)`. -/

structure RenderResultM where
  video_path : Option String
  temp_dir : Option String
  success : Bool
  error : Option String
deriving DecidableEq

/-- Abstract filesystem: the set of existing paths. -/
abbrev FS := List String

/-- Path existence (`Path.exists()`). -/
def fsHas (fs : FS) (p : String) : Bool :=
  fs.any (fun q => q == p)

/-- Removal of a directory tree: the path itself and every path under it. -/
def removeTree (path : String) (fs : FS) : FS :=
  fs.filter (fun p => !(p == path) && !(startsWithChars (path ++ "/").data p.data))

/-- `shutil.rmtree`: fails on a missing path unless `ignore_errors` is set. -/
def shutil_rmtree (path : String) (ignore_errors : Bool) (fs : FS) : Except String FS :=
  if fsHas fs path then .ok (removeTree path fs)
  else if ignore_errors then .ok fs
  else .error ("No such file or directory: " ++ path)

/-- `RenderResult.cleanup`: guarded by the falsiness of `self.temp_dir`
and by `self.temp_dir.exists()`, then `rmtree(..., ignore_errors=True)`.
An `Except.error` would model an escaping exception. -/
def RenderResultM.cleanup (r : RenderResultM) (fs : FS) : Except String FS :=
  match r.temp_dir with
  | none => .ok fs
  | some d => if fsHas fs d then shutil_rmtree d true fs else .ok fs

/-- The total content of `cleanup` (what the filesystem becomes). -/
def RenderResultM.cleanupFS (r : RenderResultM) (fs : FS) : FS :=
  match r.temp_dir with
  | none => fs
  | some d => if fsHas fs d then removeTree d fs else fs

/-! ## src/render_service.py — `find_scene_class` (lines 66-88) and
src/manim_runner.py — `find_scene_classes` (lines 16-39)

A dynamically loaded module is modeled as its member list in definition
order; each member records the facts the source's filter inspects.
`inspect.getmembers` returns the members sorted by name (not in
definition order), which the embedding reproduces with a sort by
code-point string order. -/

structure Member where
  name : String
  isClass : Bool
  isSceneSubclass : Bool
  isSceneItself : Bool
  definedInModule : Bool
deriving DecidableEq

/-- Code-point lexicographic order on strings, as Python compares them. -/
def charListLt : List Char → List Char → Bool
  | [], [] => false
  | [], _ :: _ => true
  | _ :: _, [] => false
  | a :: as, b :: bs => if a < b then true else if b < a then false else charListLt as bs

/-- Insertion step of the name sort. -/
def insertByName (m : Member) : List Member → List Member
  | [] => [m]
  | y :: ys => if charListLt m.name.data y.name.data then m :: y :: ys else y :: insertByName m ys

/-- Name sort (member names in a Python module are unique, so stability
is irrelevant and insertion sort computes `sorted(..., key=name)`). -/
def sortByName : List Member → List Member
  | [] => []
  | m :: ms => insertByName m (sortByName ms)

/-- `inspect.getmembers(module)`: all members, sorted by name. -/
def getmembers (mod : List Member) : List Member :=
  sortByName mod

/-- The filter both finders apply: a class, a `Scene` subclass, not
`Scene` itself, and defined in this module. -/
def scenePred (m : Member) : Bool :=
  m.isClass && m.isSceneSubclass && !m.isSceneItself && m.definedInModule

/-- Python `repr` of the available-scene name list, used in error messages. -/
def joinComma : List String → String
  | [] => ""
  | [s] => s
  | s :: ss => s ++ ", " ++ joinComma ss

def pyReprNames (cs : List Member) : String :=
  "[" ++ joinComma (cs.map (fun m => "\x27" ++ m.name ++ "\x27")) ++ "]"

/-- `render_service.find_scene_class`: one class — the named one, or the
*last* (by the sorted order) when no name is given. -/
def find_scene_class (mod : List Member) (scene_name : Option String) : Except String Member :=
  let scene_classes := (getmembers mod).filter scenePred
  if scene_classes.isEmpty then .error ("No Scene classes found in the provided code")
  else
    match scene_name with
    | some nm =>
      match scene_classes.find? (fun m => m.name == nm) with
      | some m => .ok m
      | none =>
        .error ("Scene \x27" ++ nm ++ "\x27 not found. Available scenes: " ++
          pyReprNames scene_classes)
    | none =>
      match scene_classes.getLast? with
      | some m => .ok m
      | none => .error ("No Scene classes found in the provided code")

/-- `manim_runner.find_scene_classes`: the singleton named class, or
*all* matching classes when no name is given. -/
def runner_find_scene_classes (mod : List Member) (scene_name : Option String) :
    Except String (List Member) :=
  let scene_classes := (getmembers mod).filter scenePred
  if scene_classes.isEmpty then .error ("No Scene classes found in the provided code")
  else
    match scene_name with
    | some nm =>
      match scene_classes.find? (fun m => m.name == nm) with
      | some m => .ok [m]
      | none =>
        .error ("Scene \x27" ++ nm ++ "\x27 not found. Available scenes: " ++
          pyReprNames scene_classes)
    | none => .ok scene_classes

/-! ## src/render_service.py — `render_code` (lines 91-220)

The oracle carries everything outside the pure string logic: the result
of `compile()` (the CPython parser), the member list of the dynamically
executed module, the outcomes of `exec_module`, `scene.run()` and the
output-file discovery, and the diagnostic strings.  The outcome records,
besides the returned `RenderResult`, whether the dynamic
module-execution step (`spec.loader.exec_module`) was reached. -/

structure RenderEnv where
  parseErr : String → Option String
  module : List Member
  execErr : Option String
  runErr : Option String
  primaryOutputExists : Bool
  globOutputs : List String
  filesListing : String
  cwdInfo : String

structure RenderOutcome where
  result : RenderResultM
  moduleExecuted : Bool
deriving DecidableEq

/-- `QUALITY_MAP` of the source (resolution pairs). -/
def QUALITY_MAP : List (String × Nat × Nat) :=
  [("low", 854, 480), ("medium", 1280, 720), ("high", 1920, 1080), ("4k", 3840, 2160)]

/-- `FORMAT_MAP` of the source (file extensions). -/
def FORMAT_MAP : List (String × String) :=
  [("mp4", ".mp4"), ("gif", ".gif"), ("mov", ".mov")]

/-- The `except Exception` block of `render_code`: every raised error is
converted into a failed `RenderResult` whose message carries the
diagnostic snapshot (`f"{str(e)} ({debug_info})"`), with the workspace
preserved. -/
def withDebug (env : RenderEnv) (msg : String) : String :=
  msg ++ " (" ++ env.cwdInfo ++ ")"

def errOutcome (env : RenderEnv) (temp_dir : String) (executed : Bool) (msg : String) :
    RenderOutcome :=
  ⟨⟨none, some temp_dir, false, some (withDebug env msg)⟩, executed⟩

/-- `render_code`: asset/code materialization (not observable here),
then in source order — the `compile()` syntax check, the import
denylist, the dynamic module execution, scene lookup, quality/format
resolution, `scene.run()`, and output discovery with the glob
fallback.  Every failure path returns a failed `RenderResult` instead
of raising. -/
def render_code (env : RenderEnv) (code : String) (scene_name : Option String)
    (quality format : String) (temp_dir render_id : String) : RenderOutcome :=
  match env.parseErr code with
  | some e => errOutcome env temp_dir false ("Generated code has syntax errors: " ++ e)
  | none =>
    if containsSub (("from manim import").data) code.data ||
        containsSub (("import manim").data) code.data then
      errOutcome env temp_dir false
        ("Generated code uses \x27manim\x27 instead of \x27manimlib\x27. Regeneration needed.")
    else if containsSub (("from manif").data) code.data ||
        containsSub (("import manif").data) code.data then
      errOutcome env temp_dir false
        ("Generated code contains hallucinated module \x27manif\x27. Regeneration needed.")
    else
      match env.execErr with
      | some e => errOutcome env temp_dir true e
      | none =>
        match find_scene_class env.module scene_name with
        | .error e => errOutcome env temp_dir true e
        | .ok _ =>
          let _resolution := (QUALITY_MAP.lookup quality).getD (1280, 720)
          let ext := (FORMAT_MAP.lookup format).getD (".mp4")
          match env.runErr with
          | some e => errOutcome env temp_dir true e
          | none =>
            let primary := temp_dir ++ "/output/output_" ++ render_id ++ ext
            if env.primaryOutputExists then ⟨⟨some primary, some temp_dir, true, none⟩, true⟩
            else
              match env.globOutputs with
              | v :: _ => ⟨⟨some v, some temp_dir, true, none⟩, true⟩
              | [] =>
                errOutcome env temp_dir true
                  ("No video file generated in " ++ temp_dir ++ "/output. Files: " ++
                    env.filesListing)

/-! ## src/render_service.py — `VideoGenerationService.generate_video` (lines 232-297)

One whole-pipeline attempt is abstracted by its outcome: an exception
raised by the LLM or TTS stage (`except Exception`), a failed render
(`result.success` false), or a successful render.  The loop runs
`for attempt in range(2)`, updates `last_error`, and after exhaustion
returns `RenderResult(None, None, False, f"Generation failed after 2 attempts: {last_error}")`
— it never raises. -/

inductive GenAttempt where
  | exn (msg : String)
  | renderFail (err : String)
  | renderOk (video temp : String)
deriving DecidableEq

/-- The error a failing attempt contributes to `last_error`. -/
def attemptFailMsg : GenAttempt → Option String
  | .exn m => some m
  | .renderFail e => some e
  | .renderOk _ _ => none

/-- The retry loop, fuelled by the remaining attempts; `k` counts the
attempts already made; returns the result and the attempts used. -/
def generateVideoGo (o : Nat → GenAttempt) : Nat → Nat → Option String → RenderResultM × Nat
  | 0, k, last =>
    (⟨none, none, false, some ("Generation failed after 2 attempts: " ++ last.getD ("None"))⟩, k)
  | fuel + 1, k, _last =>
    match o k with
    | .renderOk v t => (⟨some v, some t, true, none⟩, k + 1)
    | .renderFail e => generateVideoGo o fuel (k + 1) (some e)
    | .exn m => generateVideoGo o fuel (k + 1) (some m)
  termination_by fuel => fuel

/-- `VideoGenerationService.generate_video` with `max_attempts = 2`. -/
def generate_video (o : Nat → GenAttempt) : RenderResultM × Nat :=
  generateVideoGo o 2 0 none

/-! ## src/manim_runner.py — `main` (lines 41-103)

The runner renders every discovered class in order; with more than one
class, the `file_name` of scene `i` is `f"{original}_{i:02d}"`.  Decimal
formatting is implemented from first principles (`%d` semantics) because
the suffix-uniqueness claim needs its injectivity. -/

/-- Decimal digit character. -/
def decDigit : Nat → Char
  | 0 => '0' | 1 => '1' | 2 => '2' | 3 => '3' | 4 => '4'
  | 5 => '5' | 6 => '6' | 7 => '7' | 8 => '8' | _ => '9'

/-- Fuelled decimal rendering of a natural number (`"%d" % n`). -/
def decReprGo : Nat → Nat → List Char
  | 0, _ => []
  | fuel + 1, n =>
    if n < 10 then [decDigit n]
    else decReprGo fuel (n / 10) ++ [decDigit (n % 10)]

def decRepr (n : Nat) : List Char :=
  decReprGo (n + 1) n

/-- `"%02d" % i`: zero-pad to width 2. -/
def pad2 (i : Nat) : List Char :=
  if i < 10 then '0' :: decRepr i else decRepr i

/-- The output file-name stems `main` assigns to the scenes, in render
order: `stem_{i:02d}` when more than one scene was discovered, the bare
stem otherwise. -/
def runner_output_names (stem : List Char) (k : Nat) : List (List Char) :=
  (List.range k).map (fun i => if 1 < k then stem ++ '_' :: pad2 i else stem)

/-! ## src/api.py — the HTTP handlers (lines 145-207 and 243-283)

The handlers are modeled by the sequence of effectful actions they
perform, branching on the render outcome.  The action alphabet includes
gate acquisition/release so that their absence is a statement about the
handler bodies, not about the alphabet. -/

inductive ApiAction where
  | acquireGate
  | releaseGate
  | callRenderCode
  | callGenerateVideo
  | cleanupResult
  | raiseHTTP (status : Nat)
  | storeActiveRender
  | scheduleCleanupTask
  | sendFileResponse
deriving DecidableEq

/-- The branch shared by both handlers after the service call: cleanup
and 400 on failure, cleanup and 500 on a missing file, otherwise
registry insert, background-cleanup scheduling, and the file response. -/
def apiResponseTail (success video_exists : Bool) : List ApiAction :=
  if !success then [ApiAction.cleanupResult, ApiAction.raiseHTTP 400]
  else if !video_exists then [ApiAction.cleanupResult, ApiAction.raiseHTTP 500]
  else [ApiAction.storeActiveRender, ApiAction.scheduleCleanupTask, ApiAction.sendFileResponse]

/-- `render_animation` (`POST /render`): calls `render_code` directly —
no gate is acquired or released anywhere in the handler. -/
def render_animation_actions (success video_exists : Bool) : List ApiAction :=
  ApiAction.callRenderCode :: apiResponseTail success video_exists

/-- `generate_video_endpoint` (`POST /generate`): calls
`video_gen_service.generate_video` directly — again no gate. -/
def generate_video_endpoint_actions (success video_exists : Bool) : List ApiAction :=
  ApiAction.callGenerateVideo :: apiResponseTail success video_exists

/-! # Theorems for the claims -/

/-! ## C1 — the concurrency gate (src/api.py)

src/api.py contains no semaphore, lock, or any other concurrency
primitive: both handlers invoke the (blocking, synchronous) service
call directly on the event loop.  The theorem below evaluates the
handler action traces: neither path ever acquires or releases a gate,
and each begins directly with its service call. -/

/-- C1: the claim says a process-wide capacity-1 gate is acquired before
entering the render path and the generate path and released afterward;
in the code no gate exists — both handler traces contain no acquire and
no release, and start directly with the service call. -/
theorem C1_no_gate_in_handlers :
    ∀ s v : Bool,
      ((render_animation_actions s v).contains ApiAction.acquireGate = false ∧
       (render_animation_actions s v).contains ApiAction.releaseGate = false ∧
       (render_animation_actions s v).head? = some ApiAction.callRenderCode) ∧
      ((generate_video_endpoint_actions s v).contains ApiAction.acquireGate = false ∧
       (generate_video_endpoint_actions s v).contains ApiAction.releaseGate = false ∧
       (generate_video_endpoint_actions s v).head? = some ApiAction.callGenerateVideo) := by
  intro s v
  cases s <;> cases v <;> decide

/-! ## C2 — the whole-pipeline retry of `generate_video` -/

/-- C2: `generate_video` makes at most 2 whole-pipeline attempts and
never raises (every branch of the loop body is caught and turned into
`last_error`); when both attempts fail it returns a `RenderResult` with
`success = false` whose message names the attempt count (2) and the
last attempt's error. -/
theorem C2_two_attempts_never_raise (o : Nat → GenAttempt) :
    (generate_video o).2 ≤ 2 ∧
    ((attemptFailMsg (o 0)).isSome = true → (attemptFailMsg (o 1)).isSome = true →
      (generate_video o).1 =
        ⟨none, none, false,
          some ("Generation failed after 2 attempts: " ++ (attemptFailMsg (o 1)).getD ("None"))⟩) := by
  constructor
  · cases h0 : o 0 <;> cases h1 : o 1 <;>
      simp [generate_video, generateVideoGo, h0, h1]
  · intro hf0 hf1
    cases h0 : o 0 <;> cases h1 : o 1 <;>
      simp_all [generate_video, generateVideoGo, attemptFailMsg]

/-- Witness oracle for C2: the first attempt raises in the LLM/TTS
stage, the second fails in the renderer. -/
def c2OracleW : Nat → GenAttempt :=
  fun n => if n = 0 then GenAttempt.exn ("llm down") else GenAttempt.renderFail ("render failed")

/-- C2 witness: at the concrete failing oracle, at most 2 attempts run
and the exhaustion result carries the attempt count and the last error. -/
theorem C2_two_attempts_never_raise_witness :
    (generate_video c2OracleW).2 ≤ 2 ∧
    (generate_video c2OracleW).1 =
      ⟨none, none, false, some ("Generation failed after 2 attempts: render failed")⟩ :=
  ⟨(C2_two_attempts_never_raise c2OracleW).1,
   (C2_two_attempts_never_raise c2OracleW).2 rfl rfl⟩

/-! ## C3 — scene discovery and per-scene output files (src/manim_runner.py)

`inspect.getmembers` sorts module members by name, so the runner's
discovery order is ascending name order, not definition order; the
counterexample below exhibits a module whose definition order differs.
The amended theorem proves discovery in sorted order, exact selection
under a selector, and uniqueness of the index-padded output stems. -/

/-- A scene class named Zeta, defined first in the counterexample module. -/
def zetaM : Member := ⟨"Zeta", true, true, false, true⟩

/-- A scene class named Alpha, defined second in the counterexample module. -/
def alphaM : Member := ⟨"Alpha", true, true, false, true⟩

/-- Counterexample module: definition order is Zeta before Alpha. -/
def c3Module : List Member := [zetaM, alphaM]

/-- C3 counterexample: on a module defining Zeta before Alpha, the
runner discovers `[Alpha, Zeta]` (alphabetical), which differs from the
definition-order list `[Zeta, Alpha]` the claim prescribes. -/
theorem C3_discovery_not_definition_order :
    runner_find_scene_classes c3Module none = .ok [alphaM, zetaM] ∧
    c3Module.filter scenePred = [zetaM, alphaM] ∧
    runner_find_scene_classes c3Module none ≠ .ok (c3Module.filter scenePred) := by
  refine ⟨rfl, rfl, ?_⟩
  intro h
  injection h with h2
  exact absurd h2 (by decide)

/-- Decimal value of a digit character. -/
def dval (c : Char) : Nat := c.toNat - 48

/-- Decimal value of a digit string. -/
def decVal (l : List Char) : Nat := l.foldl (fun a c => 10 * a + dval c) 0

theorem dval_decDigit (n : Nat) (h : n < 10) : dval (decDigit n) = n := by
  interval_cases n <;> decide

theorem decVal_append_digit (l : List Char) (c : Char) :
    decVal (l ++ [c]) = 10 * decVal l + dval c := by
  simp [decVal, List.foldl_append]

theorem decVal_decReprGo (fuel : Nat) : ∀ n, n < fuel → decVal (decReprGo fuel n) = n := by
  induction fuel with
  | zero => intro n h; omega
  | succ f ih =>
    intro n h
    unfold decReprGo
    by_cases h10 : n < 10
    · simp only [h10, if_true]
      have hsing : decVal [decDigit n] = dval (decDigit n) := by simp [decVal]
      rw [hsing, dval_decDigit n h10]
    · simp only [h10, if_false]
      rw [decVal_append_digit]
      have hdiv : n / 10 < f := by
        have h1 : n / 10 < n := Nat.div_lt_self (by omega) (by omega)
        omega
      rw [ih (n / 10) hdiv, dval_decDigit (n % 10) (Nat.mod_lt n (by omega))]
      omega

theorem decVal_decRepr (n : Nat) : decVal (decRepr n) = n :=
  decVal_decReprGo (n + 1) n (by omega)

theorem decVal_pad2 (i : Nat) : decVal (pad2 i) = i := by
  unfold pad2
  by_cases h : i < 10
  · simp only [h, if_true]
    have h0 : (10 * 0 + dval '0') = 0 := by decide
    calc decVal ('0' :: decRepr i)
        = List.foldl (fun a c => 10 * a + dval c) (10 * 0 + dval '0') (decRepr i) := rfl
      _ = List.foldl (fun a c => 10 * a + dval c) 0 (decRepr i) := by rw [h0]
      _ = i := decVal_decRepr i
  · simp only [h, if_false]
    exact decVal_decRepr i

theorem pad2_injective : Function.Injective pad2 := by
  intro a b h
  have h2 := congrArg decVal h
  rwa [decVal_pad2, decVal_pad2] at h2

/-- C3 amended: without a selector the runner discovers every matching
class in ascending name order (the order of `inspect.getmembers`) and
renders each in turn; with more than one scene the output stems are the
index-padded `stem_{i:02d}`, which are pairwise distinct; with a
selector exactly the matching class is rendered. -/
theorem C3_sorted_discovery_unique_outputs (mod : List Member) (stem : List Char) :
    (((getmembers mod).filter scenePred).isEmpty = false →
      runner_find_scene_classes mod none = .ok ((getmembers mod).filter scenePred)) ∧
    (∀ (nm : String) (m : Member),
      ((getmembers mod).filter scenePred).find? (fun x => x.name == nm) = some m →
      runner_find_scene_classes mod (some nm) = .ok [m]) ∧
    (∀ k, 1 < k → (runner_output_names stem k).Nodup) := by
  refine ⟨?_, ?_, ?_⟩
  · intro h; simp [runner_find_scene_classes, h]
  · intro nm m hf
    have hne : ((getmembers mod).filter scenePred).isEmpty = false := by
      cases hE : ((getmembers mod).filter scenePred).isEmpty
      · rfl
      · rw [List.isEmpty_eq_true] at hE; rw [hE] at hf; simp [List.find?] at hf
    simp [runner_find_scene_classes, hne, hf]
  · intro k hk
    unfold runner_output_names
    have hmap : ((List.range k).map fun i => if 1 < k then stem ++ '_' :: pad2 i else stem) =
        (List.range k).map (fun i => stem ++ '_' :: pad2 i) := by
      simp [hk]
    rw [hmap]
    refine List.Nodup.map ?_ (List.nodup_range k)
    intro a b hab
    have h2 : '_' :: pad2 a = '_' :: pad2 b := List.append_cancel_left hab
    exact pad2_injective (by injection h2)

/-- C3 witness: on the concrete two-scene module, discovery returns both
scenes (name-sorted), the selector picks exactly Alpha, and the two
padded output stems are distinct. -/
theorem C3_sorted_discovery_unique_outputs_witness :
    runner_find_scene_classes c3Module none = .ok [alphaM, zetaM] ∧
    runner_find_scene_classes c3Module (some ("Alpha")) = .ok [alphaM] ∧
    (runner_output_names (("output").data) 2).Nodup := by
  have h := C3_sorted_discovery_unique_outputs c3Module (("output").data)
  refine ⟨?_, ?_, h.2.2 2 (by omega)⟩
  · rw [h.1 (by decide)]
    rfl
  · exact h.2.1 ("Alpha") alphaM (by decide)

/-! ## C4 — the content generator's stage structure -/

/-- C4: within one call of `generate_manim_content` the storyboard and
script stages run exactly once, the code stage at most 3 times, and when
all 3 code attempts fail the call fails with the validation error
carrying the last error message. -/
theorem C4_code_retry_bound_stages_once (o : LLMOracle) (ak dk : Option String)
    (hk : (ak.orElse (fun _ => dk)).isSome = true) :
    (generate_manim_content o ak dk).2.storyboard = 1 ∧
    (generate_manim_content o ak dk).2.script = 1 ∧
    (generate_manim_content o ak dk).2.code ≤ 3 ∧
    ((∀ k, k < 3 → ∃ e, o.codeAttempt k = .error e) →
      (generate_manim_content o ak dk).1 =
        .error ("Code generation failed after 3 attempts. Last error: " ++
          errStrOf (o.codeAttempt 2))) := by
  match hak : ak.orElse (fun _ => dk) with
  | none => rw [hak] at hk; simp at hk
  | some key =>
    have hloop : (codeAttemptLoop o 3 0).2 ≤ 3 := by
      cases h0 : o.codeAttempt 0 <;> cases h1 : o.codeAttempt 1 <;> cases h2 : o.codeAttempt 2 <;>
        simp [codeAttemptLoop, h0, h1, h2]
    have hsplit : (generate_manim_content o ak dk).2 = ⟨1, 1, (codeAttemptLoop o 3 0).2⟩ := by
      simp only [generate_manim_content, hak]
      rcases hL : codeAttemptLoop o 3 0 with ⟨e | c, n⟩ <;> simp [hL]
    refine ⟨by rw [hsplit], by rw [hsplit], by rw [hsplit]; exact hloop, ?_⟩
    intro hAll
    obtain ⟨e0, he0⟩ := hAll 0 (by omega)
    obtain ⟨e1, he1⟩ := hAll 1 (by omega)
    obtain ⟨e2, he2⟩ := hAll 2 (by omega)
    simp [generate_manim_content, hak, codeAttemptLoop, he0, he1, he2, errStrOf]

/-- Witness oracle for C4: every code attempt fails validation. -/
def c4OracleW : LLMOracle :=
  ⟨"sb", "script text", fun _ => .error ("invalid syntax")⟩

/-- C4 witness: at the all-failing oracle the stage counts are 1/1/≤3
and the exhaustion error carries the last message. -/
theorem C4_code_retry_bound_stages_once_witness :
    (generate_manim_content c4OracleW (some ("key")) none).2.storyboard = 1 ∧
    (generate_manim_content c4OracleW (some ("key")) none).2.script = 1 ∧
    (generate_manim_content c4OracleW (some ("key")) none).2.code ≤ 3 ∧
    (generate_manim_content c4OracleW (some ("key")) none).1 =
      .error ("Code generation failed after 3 attempts. Last error: invalid syntax") := by
  have h := C4_code_retry_bound_stages_once c4OracleW (some ("key")) none rfl
  refine ⟨h.1, h.2.1, h.2.2.1, ?_⟩
  rw [h.2.2.2 (fun k _ => ⟨"invalid syntax", rfl⟩)]
  rfl

/-! ## C5 — syntactically invalid code fails before execution -/

/-- C5: when the static `compile()` step reports a syntax error,
`render_code` returns a failed `RenderResult` whose message names the
syntax error, and the dynamic module-execution step is never reached —
for every environment, i.e. regardless of what executing the code would
have done. -/
theorem C5_syntax_error_fails_before_execution (env : RenderEnv) (code : String)
    (sn : Option String) (q f td rid e : String) (h : env.parseErr code = some e) :
    (render_code env code sn q f td rid).moduleExecuted = false ∧
    (render_code env code sn q f td rid).result.success = false ∧
    (render_code env code sn q f td rid).result.error =
      some (withDebug env ("Generated code has syntax errors: " ++ e)) := by
  simp [render_code, h, errOutcome]

/-- Witness environment for C5: the parser rejects everything. -/
def c5Env : RenderEnv :=
  ⟨fun _ => some ("unexpected EOF"), [], none, none, false, [], "[]", "CWD: /tmp"⟩

/-- C5 witness: a concrete unparsable input fails fast with the syntax
message and without module execution. -/
theorem C5_syntax_error_fails_before_execution_witness :
    (render_code c5Env ("(") none ("low") ("mp4") ("/tmp/d") ("ab12")).moduleExecuted = false ∧
    (render_code c5Env ("(") none ("low") ("mp4") ("/tmp/d") ("ab12")).result.success = false ∧
    (render_code c5Env ("(") none ("low") ("mp4") ("/tmp/d") ("ab12")).result.error =
      some ("Generated code has syntax errors: unexpected EOF (CWD: /tmp)") := by
  have h := C5_syntax_error_fails_before_execution c5Env ("(") none ("low") ("mp4")
    ("/tmp/d") ("ab12") ("unexpected EOF") rfl
  refine ⟨h.1, h.2.1, ?_⟩
  rw [h.2.2]
  rfl

/-! ## C6 — the `import manim` denylist at both layers -/

/-- C6: every code string containing the substring `import manim` is
rejected: `render_code` returns a failed result without ever executing
the module (for every environment — whether the parse step or the
denylist check fires first), and the content generator's validation
yields an error (scrambled-check or denylist, either of which drives
the retry loop). -/
theorem C6_import_manim_always_rejected :
    (∀ (env : RenderEnv) (code : String) (sn : Option String) (q f td rid : String),
      containsSub (("import manim").data) code.data = true →
      (render_code env code sn q f td rid).result.success = false ∧
      (render_code env code sn q f td rid).moduleExecuted = false) ∧
    (∀ (parseOk : List Char → Bool) (code : List Char),
      containsSub (("import manim").data) code = true →
      ∃ msg, validate_code parseOk code = .error msg) := by
  constructor
  · intro env code sn q f td rid h
    cases hp : env.parseErr code with
    | some e => simp [render_code, hp, errOutcome]
    | none => simp [render_code, hp, h, errOutcome]
  · intro parseOk code h
    unfold validate_code
    cases hs : is_code_scrambled code with
    | true =>
      exact ⟨("Code appears to be scrambled/interleaved - LLM produced corrupted output").data,
        by simp [hs]⟩
    | false =>
      simp only [Bool.false_eq_true, if_false]
      cases h1 : containsSub (("from manim import").data) code with
      | true => simp [ILLEGAL_IMPORTS, List.find?, h1]
      | false => simp [ILLEGAL_IMPORTS, List.find?, h1, h]

/-- Witness environment for C6: parser accepts, module well-behaved. -/
def c6Env : RenderEnv :=
  ⟨fun _ => none, [], none, none, false, [], "[]", "CWD: /tmp"⟩

/-- C6 witness: the concrete code `import manim` is rejected by both
layers. -/
theorem C6_import_manim_always_rejected_witness :
    ((render_code c6Env ("import manim\n") none ("low") ("mp4") ("/t") ("id")).result.success = false ∧
     (render_code c6Env ("import manim\n") none ("low") ("mp4") ("/t") ("id")).moduleExecuted = false) ∧
    (∃ msg, validate_code (fun _ => true) (("import manim\n").data) = .error msg) :=
  ⟨C6_import_manim_always_rejected.1 c6Env ("import manim\n") none ("low") ("mp4") ("/t") ("id")
    (by decide),
   C6_import_manim_always_rejected.2 (fun _ => true) (("import manim\n").data) (by decide)⟩

/-! ## C7 — the dead no-keyword fallback of the knowledge retriever

The baseline-bonus loop always populates `section_scores`, so
`top_sections` is never empty (for any positive `max_sections`) and the
`if not top_sections` fallback never fires: a keyword-free query returns
the three baseline sections, not the fixed six-section default list the
source's own comment (and the spec) promise. -/

/-- C7: at the keyword-free prompt `""` (no keyword of the table occurs
in it), `retrieve_relevant_knowledge` returns the three baseline-bonus
sections — not the fixed default section list. -/
theorem C7_no_keyword_fallback_dead :
    (KEYWORD_MAPPINGS.all (fun kv => !containsSub kv.1.data (pyLower (("").data)))) = true ∧
    retrieve_relevant_knowledge_sections ("") 6 =
      ["scene_methods", "constants_colors", "mobject_methods"] ∧
    retrieve_relevant_knowledge_sections ("") 6 ≠ DEFAULT_SECTIONS := by
  refine ⟨by decide, by decide, by decide⟩

/-! ## C8 — the repair pipeline is not idempotent

The LaTeX rewrite `\\text\{([^}]+)\}` → `\\mathrm\{\1\}` applied to
nested braces rewrites again on a second pass:
`\text{\text{a}}` becomes `\mathrm{\text{a}}` and then
`\mathrm{\mathrm{a}}`.  The import-insertion and class-wrapping steps
are, individually, idempotent. -/

/-- C8 counterexample input: already has the import and a scene class,
and contains a nested `\text` macro. -/
def c8input : List Char :=
  ("from manimlib import *\nclass A(Scene):\n    x = \x27\\text\x7b\\text\x7ba\x7d\x7d\x27\n").data

set_option maxRecDepth 100000 in
/-- C8 counterexample: applying the post-processing pipeline twice to a
concrete input differs from applying it once. -/
theorem C8_post_process_not_idempotent :
    post_process_code (post_process_code c8input) ≠ post_process_code c8input := by
  decide

theorem import_prefix_contains_import : ∀ cs : List Char,
    containsSub (("from manimlib import").data)
      (("from manimlib import *\n\n").data ++ cs) = true :=
  fun _ => rfl

theorem wrapped_has_class_def : ∀ cs : List Char,
    hasClassDef
      (("\nfrom manimlib import *\n\nclass GeneratedScene(Scene):\n    def construct(self):\n").data
        ++ cs) = true :=
  fun _ => rfl

/-- C8 amended: the full pipeline is not idempotent (see the
counterexample), but the two structural steps the claim singles out are:
the import-insertion step and the synthetic-wrapper step are each
idempotent, so the import line is inserted at most once and the wrapper
is added at most once under repeated application of those steps. -/
theorem C8_import_and_wrapper_steps_idempotent (code : List Char) :
    fix_imports (fix_imports code) = fix_imports code ∧
    ensure_class (ensure_class code) = ensure_class code := by
  constructor
  · cases h : containsSub (("from manimlib import").data) code with
    | true => unfold fix_imports; simp [h]
    | false =>
      have h1 : fix_imports code = ("from manimlib import *\n\n").data ++ code := by
        unfold fix_imports; simp [h]
      rw [h1]
      unfold fix_imports
      rw [if_pos (import_prefix_contains_import code)]
  · cases h : hasClassDef code with
    | true => unfold ensure_class; simp [h]
    | false =>
      have h1 : ensure_class code = wrap_in_scene code := by
        unfold ensure_class; simp [h]
      rw [h1]
      unfold ensure_class
      have h2 : hasClassDef (wrap_in_scene code) = true := by
        unfold wrap_in_scene
        rw [List.append_assoc]
        exact wrapped_has_class_def _
      rw [if_pos h2, ← h1, h1]

/-! ## C9 — the scrambled-output detector

Check 1 flags every snippet whose import occurs on a line of index ≥ 5
of the stripped code; but a snippet with the import on line 1 can still
be flagged by check 2 (a `self.` line preceding the last
`class …Scene…` line), so the claim's second half fails. -/

/-- C9 counterexample snippet: import on line 1, but a `self.` reference
on line 2 precedes the class definition on line 3. -/
def c9snip : List Char :=
  ("from manimlib import *\nself.play(c)\nclass Foo(Scene):\n    x = 1").data

/-- C9 counterexample: the snippet has the mandatory import on its first
line (and nowhere after line 5), yet the detector flags it. -/
theorem C9_line1_import_still_flagged :
    importLine ((linesOf c9snip).headD []) = true ∧
    (linesOf c9snip).drop 5 = [] ∧
    is_code_scrambled c9snip = true := by
  refine ⟨by decide, by decide, by decide⟩

/-- C9 amended: the detector flags exactly the snippets with a late
occurrence of the import (a line of index ≥ 5 of the stripped snippet
containing it — this covers the claim's first half) or with a `self.`
line preceding the last `class …Scene…` line; a snippet with the
required line-1 import escapes only when neither condition holds. -/
theorem C9_detector_characterization :
    ∀ code, is_code_scrambled code = (hasLateImport code || selfBeforeClass code) := by
  intro code
  unfold is_code_scrambled hasLateImport selfBeforeClass
  cases h : ((linesOf code).drop 5).any importLine <;> simp [h]

/-! ## C10 — `RenderResult.cleanup` is total and idempotent -/

theorem fsHas_removeTree (d : String) (fs : FS) : fsHas (removeTree d fs) d = false := by
  induction fs with
  | nil => rfl
  | cons p ps ih =>
    simp only [removeTree, List.filter] at ih ⊢
    cases hk : (!(p == d) && !(startsWithChars (d ++ "/").data p.data)) with
    | false => exact ih
    | true =>
      have hpd : (p == d) = false := by
        cases hpq : (p == d)
        · rfl
        · rw [hpq] at hk; simp at hk
      simp only [fsHas, List.any] at ih ⊢
      rw [hpd]
      simpa using ih

/-- C10: `cleanup` never raises — on every `RenderResult` and
filesystem it returns `.ok` (in particular on a result whose
`temp_dir` is `None`, such as the final-exhaustion result of
`generate_video`, it is a no-op), and applying it twice has the same
effect as applying it once. -/
theorem C10_cleanup_never_raises_idempotent (r : RenderResultM) (fs : FS) :
    r.cleanup fs = .ok (r.cleanupFS fs) ∧
    r.cleanupFS (r.cleanupFS fs) = r.cleanupFS fs ∧
    (r.temp_dir = none → r.cleanup fs = .ok fs) := by
  refine ⟨?_, ?_, ?_⟩
  · cases hd : r.temp_dir with
    | none => simp [RenderResultM.cleanup, RenderResultM.cleanupFS, hd]
    | some d =>
      cases hh : fsHas fs d with
      | true => simp [RenderResultM.cleanup, RenderResultM.cleanupFS, shutil_rmtree, hd, hh]
      | false => simp [RenderResultM.cleanup, RenderResultM.cleanupFS, hd, hh]
  · cases hd : r.temp_dir with
    | none => simp [RenderResultM.cleanupFS, hd]
    | some d =>
      cases hh : fsHas fs d with
      | true => simp [RenderResultM.cleanupFS, hd, hh, fsHas_removeTree]
      | false => simp [RenderResultM.cleanupFS, hd, hh]
  · intro hn; simp [RenderResultM.cleanup, hn]

/-- C10 witness: cleaning up the `temp_dir = None` exhaustion result on
a concrete filesystem succeeds and leaves it unchanged. -/
theorem C10_cleanup_never_raises_idempotent_witness :
    RenderResultM.cleanup ⟨none, none, false, some ("boom")⟩ ["/tmp/a"] = .ok ["/tmp/a"] :=
  (C10_cleanup_never_raises_idempotent ⟨none, none, false, some ("boom")⟩ ["/tmp/a"]).2.2 rfl
